import Mathlib

/-!
Shallow embedding of `src/server/src/gcp_logging.py` (voriteam/go-links):
a GCP-compatible structured-logging adapter for Gunicorn.  Python dicts with
string keys become association lists (insertion-ordered, as in Python 3.7+),
`json.dumps` becomes a recursive serializer over a JSON value type, and a log
record's possibly-raising `getMessage()` call is embedded in `Except`.
Timestamps (`datetime.now(timezone.utc).isoformat()`) are nondeterministic
inputs and are passed as an explicit `now : String` parameter.
-/

namespace GcpLogging

/-- Python logging level constants (`logging.DEBUG` etc.). -/
def logging.DEBUG : Int := 10

/-- `logging.INFO` -/
def logging.INFO : Int := 20

/-- `logging.WARNING` -/
def logging.WARNING : Int := 30

/-- `logging.ERROR` -/
def logging.ERROR : Int := 40

/-- `logging.CRITICAL` -/
def logging.CRITICAL : Int := 50

/-- A Python exception value (opaque payload: its repr). -/
structure PyExc where
  repr : String
deriving DecidableEq, Repr

/-- A `record.exc_info` triple, carried together with the list of lines that
`traceback.format_exception(*exc_info)` produces for it (the traceback module
is external stdlib; its output is data to this adapter). -/
structure ExcInfo where
  lines : List String
deriving DecidableEq, Repr

/-- `traceback.format_exception(*exc_info)`: the list of traceback lines. -/
def format_exception (ei : ExcInfo) : List String := ei.lines

/-- A `logging.LogRecord` as used by `JSONFormatter.format`: its numeric
level, the result of calling `record.getMessage()` (which interpolates
`msg % args` and can raise, hence `Except`), and its optional `exc_info`. -/
structure LogRecord where
  levelno : Int
  getMessage : Except PyExc String
  exc_info : Option ExcInfo

/-- JSON values as produced by this module: strings, integers and objects
(insertion-ordered key/value lists, like Python dicts). -/
inductive JVal where
  | str : String → JVal
  | num : Int → JVal
  | obj : List (String × JVal) → JVal
deriving Repr

/-- Escaping applied by `json.dumps` to the characters that can occur in this
module's output: backslash, double quote, and the common control characters
(newlines and tabs appear in formatted tracebacks). -/
def escapeJson (s : String) : String :=
  s.foldl (fun acc c =>
    if c = '"' then acc ++ "\\\""
    else if c = '\\' then acc ++ "\\\\"
    else if c = '\n' then acc ++ "\\n"
    else if c = '\t' then acc ++ "\\t"
    else if c = '\r' then acc ++ "\\r"
    else acc.push c) ""

mutual

/-- `json.dumps` on a JSON value (default separators `", "` and `": "`). -/
def JVal.dumps : JVal → String
  | .str s => "\"" ++ escapeJson s ++ "\""
  | .num n => toString n
  | .obj kvs => "\x7b" ++ dumpsPairs kvs ++ "\x7d"

/-- Comma-separated `"key": value` items of a JSON object. -/
def dumpsPairs : List (String × JVal) → String
  | [] => ""
  | [(k, v)] => "\"" ++ escapeJson k ++ "\": " ++ v.dumps
  | (k, v) :: rest =>
      "\"" ++ escapeJson k ++ "\": " ++ v.dumps ++ ", " ++ dumpsPairs rest

end

/-- `json.dumps(log_entry)` for a top-level dict. -/
def json_dumps (entry : List (String × JVal)) : String :=
  JVal.dumps (JVal.obj entry)

/-- Key lookup in a JSON object / Python dict (first binding wins; the dicts
built here have distinct keys). -/
def jlookup (kvs : List (String × JVal)) (k : String) : Option JVal :=
  (kvs.find? (fun kv => kv.1 == k)).map (fun kv => kv.2)

/-- Key lookup through one nested object: the value at `k2` inside the JSON
object stored at `k1`. -/
def jlookup2 (kvs : List (String × JVal)) (k1 k2 : String) : Option JVal :=
  match jlookup kvs k1 with
  | some (JVal.obj inner) => jlookup inner k2
  | _ => none

/-- `JSONFormatter.SEVERITY_MAP`: Python logging levels to GCP severities. -/
def JSONFormatter.SEVERITY_MAP : List (Int × String) :=
  [(logging.DEBUG, "DEBUG"),
   (logging.INFO, "INFO"),
   (logging.WARNING, "WARNING"),
   (logging.ERROR, "ERROR"),
   (logging.CRITICAL, "CRITICAL")]

/-- Python `dict.get(k, default)` on an insertion-ordered int-keyed dict. -/
def dictGet (d : List (Int × String)) (k : Int) (default : String) : String :=
  match d.find? (fun kv => kv.1 == k) with
  | some kv => kv.2
  | none => default

/-- The `log_entry` dict built by `JSONFormatter.format(record)` before
`json.dumps`: severity from `SEVERITY_MAP.get(record.levelno, 'INFO')`,
message from `record.getMessage()`, the current UTC timestamp, and, when
`record.exc_info` is set, the joined formatted traceback. -/
def JSONFormatter.format_entry (record : LogRecord) (now : String) :
    Except PyExc (List (String × JVal)) := do
  let severity := dictGet JSONFormatter.SEVERITY_MAP record.levelno "INFO"
  let message ← record.getMessage
  let log_entry := [("severity", JVal.str severity),
                    ("message", JVal.str message),
                    ("timestamp", JVal.str now)]
  let log_entry := match record.exc_info with
    | some ei => log_entry ++ [("exception", JVal.str (String.join (format_exception ei)))]
    | none => log_entry
  return log_entry

/-- `JSONFormatter.format(record)`: the JSON string `json.dumps(log_entry)`.
The method installs no exception handler, so a failure from
`record.getMessage()` propagates. -/
def JSONFormatter.format (record : LogRecord) (now : String) :
    Except PyExc String :=
  (JSONFormatter.format_entry record now).map json_dumps

/-- `sys.stdout` / `sys.stderr`. -/
inductive Stream where
  | out
  | err
deriving DecidableEq, Repr

/-- A `logging.Formatter` attached to a handler: the module's `JSONFormatter`,
a plain `logging.Formatter(fmtStr)` (as gunicorn's base setup installs), or
some pre-existing formatter. -/
inductive Fmt where
  | json
  | base (fmtStr : String)
  | other (n : Nat)
deriving DecidableEq, Repr

/-- Where a `logging.Handler` writes: a stream or a file. -/
inductive HTarget where
  | toStream (s : Stream)
  | toFile (path : String)
deriving DecidableEq, Repr

/-- A `logging.Handler`: its target, level, formatter, and whether it carries
gunicorn's `_gunicorn = True` marker set by `glogging._set_handler`. -/
structure Handler where
  target : HTarget
  level : Int
  formatter : Option Fmt
  isGunicorn : Bool
deriving DecidableEq, Repr

/-- The observable state of a `logging.Logger`: its level and handler list. -/
structure LoggerState where
  level : Int
  handlers : List Handler
deriving DecidableEq, Repr

/-- `Logger.removeHandler(h)`: removes the first matching handler if present
(Python compares handler objects by identity; `List.erase` is a no-op when
the handler is absent, as in CPython). -/
def removeHandler (st : LoggerState) (h : Handler) : LoggerState :=
  { st with handlers := st.handlers.erase h }

/-- `Logger.addHandler(h)`: appends the handler.  CPython skips the append
only when the very same object is already in the list; every call site in
this module adds a freshly constructed handler, so the append always runs. -/
def addHandler (st : LoggerState) (h : Handler) : LoggerState :=
  { st with handlers := st.handlers ++ [h] }

/-- The HTTP request attributes read by `GCPLogger.access`. -/
structure Request where
  method : String
  path : String
  version : String
deriving DecidableEq, Repr

/-- The response attributes read by `GCPLogger.access`; `response_length` is
accessed via `getattr(resp, "response_length", "-")`, so it may be absent. -/
structure Response where
  status_code : Int
  response_length : Option Int
deriving DecidableEq, Repr

/-- The WSGI environ keys read by `GCPLogger.access` via `environ.get`. -/
structure Environ where
  remote_addr : Option String
  http_user_agent : Option String
deriving DecidableEq, Repr

/-- A `datetime.timedelta` request duration, held exactly in microseconds
(CPython's own representation). -/
structure Timedelta where
  micros : Nat
deriving DecidableEq, Repr

/-- Left-pad a numeral with zeros to six digits. -/
def padZeros6 (s : String) : String :=
  String.mk (List.replicate (6 - s.length) '0') ++ s

/-- `f'\x7brequest_time.total_seconds():.6f\x7d'` for a timedelta: seconds
with exactly six fractional digits (exact, since a timedelta holds an
integral number of microseconds). -/
def formatSeconds6 (t : Timedelta) : String :=
  toString (t.micros / 1000000) ++ "." ++ padZeros6 (toString (t.micros % 1000000))

/-- The state of a `GCPLogger` (gunicorn `glogging.Logger` subclass): its two
standard loggers. -/
structure GCPLoggerState where
  error_log : LoggerState
  access_log : LoggerState
deriving DecidableEq, Repr

/-- The gunicorn config fields this module's code paths read: the resolved
log level, and the `errorlog` / `accesslog` output settings (`"-"` means a
standard stream, any other string a file path, `None` disables). -/
structure Cfg where
  loglevel : Int
  errorlog : Option String
  accesslog : Option String
deriving DecidableEq, Repr

/-- `glogging.Logger._get_gunicorn_handler(log)`: the first handler carrying
the `_gunicorn` marker, if any.  (Modelled from gunicorn, the third-party
base class this module subclasses.) -/
def _get_gunicorn_handler (log : LoggerState) : Option Handler :=
  log.handlers.find? (fun h => h.isGunicorn)

/-- `glogging.Logger._set_handler(log, output, fmt, stream=None)`: drop the
current gunicorn-managed handler, then, unless `output` is `None`, attach a
fresh marked handler — a `StreamHandler(stream)` when `output == "-"`
(CPython's `StreamHandler` defaults to `sys.stderr` when `stream` is `None`)
or a `FileHandler(output)` otherwise, with the given formatter.  (Modelled
from gunicorn.) -/
def _set_handler (log : LoggerState) (output : Option String) (fmt : Fmt)
    (stream : Option Stream) : LoggerState :=
  let log := match _get_gunicorn_handler log with
    | some h => removeHandler log h
    | none => log
  match output with
  | none => log
  | some o =>
      let h : Handler :=
        if o = "-" then
          { target := .toStream (stream.getD .err), level := 0,
            formatter := some fmt, isGunicorn := true }
        else
          { target := .toFile o, level := 0,
            formatter := some fmt, isGunicorn := true }
      addHandler log h

/-- Gunicorn's default `error_fmt`. -/
def error_fmt : String := "%(asctime)s [%(process)d] [%(levelname)s] %(message)s"

/-- Gunicorn's default `access_fmt`. -/
def access_fmt : String := "%(message)s"

/-- `glogging.Logger.setup(cfg)`, the base-class setup that `GCPLogger.setup`
invokes via `super()`: set the two loggers' levels, then install gunicorn's
plain-text handlers from `cfg.errorlog` (stream default, i.e. stderr) and,
when `cfg.accesslog` is set, from `cfg.accesslog` with `stream=sys.stdout`.
(Modelled from gunicorn with its default config: no `capture_output`, no
syslog, no `logconfig` overrides.) -/
def Logger.setup (st : GCPLoggerState) (cfg : Cfg) : GCPLoggerState :=
  let error_log := { st.error_log with level := cfg.loglevel }
  let access_log := { st.access_log with level := logging.INFO }
  let error_log := _set_handler error_log cfg.errorlog (.base error_fmt) none
  let access_log :=
    if cfg.accesslog.isSome then
      _set_handler access_log cfg.accesslog (.base access_fmt) (some .out)
    else access_log
  { error_log := error_log, access_log := access_log }

/-- `GCPLogger.setup(cfg)`: run the base setup, build one `JSONFormatter`,
and re-run `_set_handler` on the error logger (from `cfg.errorlog`) and the
access logger (from `cfg.accesslog`) with that formatter; both calls omit
the `stream` argument. -/
def GCPLogger.setup (st : GCPLoggerState) (cfg : Cfg) : GCPLoggerState :=
  let st := Logger.setup st cfg
  let json_formatter := Fmt.json
  let error_log := _set_handler st.error_log cfg.errorlog json_formatter none
  let access_log := _set_handler st.access_log cfg.accesslog json_formatter none
  { error_log := error_log, access_log := access_log }

/-- `GCPLogger.is_access_log_enabled()`: truthiness of
`self.access_log and self.access_log.handlers` — the access logger exists
and has at least one handler. -/
def GCPLogger.is_access_log_enabled (st : GCPLoggerState) : Bool :=
  !st.access_log.handlers.isEmpty

/-- The access-log `message` f-string:
`'\x7benviron.get("REMOTE_ADDR", "-")\x7d - "\x7breq.method\x7d \x7breq.path\x7d \x7breq.version\x7d" \x7bresp.status_code\x7d \x7bgetattr(resp, "response_length", "-")\x7d'`. -/
def GCPLogger.access_message (resp : Response) (req : Request) (environ : Environ) : String :=
  environ.remote_addr.getD "-" ++ " - \"" ++ req.method ++ " " ++ req.path ++ " "
    ++ req.version ++ "\" " ++ toString resp.status_code ++ " "
    ++ (match resp.response_length with
        | some n => toString n
        | none => "-")

/-- The `log_entry` dict built by `GCPLogger.access`. -/
def GCPLogger.access_entry (resp : Response) (req : Request) (environ : Environ)
    (request_time : Timedelta) (now : String) : List (String × JVal) :=
  [("severity", JVal.str "INFO"),
   ("message", JVal.str (GCPLogger.access_message resp req environ)),
   ("timestamp", JVal.str now),
   ("httpRequest", JVal.obj
     [("requestMethod", JVal.str req.method),
      ("requestUrl", JVal.str req.path),
      ("status", JVal.num resp.status_code),
      ("userAgent", JVal.str (environ.http_user_agent.getD "")),
      ("remoteIp", JVal.str (environ.remote_addr.getD "")),
      ("latency", JVal.str (formatSeconds6 request_time ++ "s"))])]

/-- `GCPLogger.access(resp, req, environ, request_time)`: returns early when
the access log is not enabled, otherwise emits exactly one line — the JSON
dump of the access entry — via `self.access_log.info(...)`.  The result is
the list of lines handed to the access logger by this call. -/
def GCPLogger.access (st : GCPLoggerState) (resp : Response) (req : Request)
    (environ : Environ) (request_time : Timedelta) (now : String) : List String :=
  if GCPLogger.is_access_log_enabled st then
    [json_dumps (GCPLogger.access_entry resp req environ request_time now)]
  else []

/-- The `console_handler` that `configure_app_logging` constructs:
`StreamHandler(sys.stdout)` at level INFO with a `JSONFormatter`. -/
def console_handler : Handler :=
  { target := .toStream .out, level := logging.INFO,
    formatter := some .json, isGunicorn := false }

/-- `configure_app_logging()`: set the root logger's level to INFO, remove
every handler (iterating over a copy `root_logger.handlers[:]`), and add the
stdout JSON console handler.  Returns the new root-logger state. -/
def configure_app_logging (root : LoggerState) : LoggerState :=
  let root := { root with level := logging.INFO }
  let root := List.foldl removeHandler root root.handlers
  addHandler root console_handler

/-! ## Concrete fixtures (evaluation inputs for witnesses) -/

/-- A sample formatted traceback (`exc_info` payload). -/
def tb1 : ExcInfo :=
  ⟨["Traceback (most recent call last):\n", "ValueError: boom\n"]⟩

/-- A sample ERROR-level record carrying exception info. -/
def rec1 : LogRecord :=
  { levelno := logging.ERROR, getMessage := .ok "boom", exc_info := some tb1 }

/-- A sample record whose `getMessage()` raises. -/
def recErr : LogRecord :=
  { levelno := logging.INFO, getMessage := .error ⟨"ValueError"⟩, exc_info := none }

/-- A sample record at a non-standard level (25 sits between INFO and
WARNING). -/
def rec2 : LogRecord :=
  { levelno := 25, getMessage := .ok "audit", exc_info := none }

/-- A sample request. -/
def req0 : Request := { method := "GET", path := "/go/x", version := "HTTP/1.1" }

/-- A sample response. -/
def resp0 : Response := { status_code := 200, response_length := some 123 }

/-- A sample response with no `response_length` attribute. -/
def resp1 : Response := { status_code := 302, response_length := none }

/-- A sample WSGI environ with both client-metadata keys present. -/
def env0 : Environ :=
  { remote_addr := some "10.0.0.7", http_user_agent := some "curl/8.0" }

/-- A sample WSGI environ with both client-metadata keys absent. -/
def env1 : Environ := { remote_addr := none, http_user_agent := none }

/-- A sample request duration: 1.5 seconds. -/
def td0 : Timedelta := ⟨1500000⟩

/-- A logger state whose access logger has no handlers (access log off). -/
def stDisabled : GCPLoggerState :=
  { error_log := ⟨logging.INFO, []⟩, access_log := ⟨logging.INFO, []⟩ }

/-- A logger state whose access logger has a handler (access log on). -/
def stEnabled : GCPLoggerState :=
  { error_log := ⟨logging.INFO, []⟩,
    access_log := ⟨logging.INFO, [console_handler]⟩ }

/-- A sample gunicorn config: log to both standard streams. -/
def cfg0 : Cfg := { loglevel := logging.INFO, errorlog := some "-", accesslog := some "-" }

/-! ## Helper lemmas -/

/-- When `record.getMessage()` succeeds, `format_entry` succeeds and its
value is the dict the method body builds. -/
lemma format_entry_ok (record : LogRecord) (now m : String)
    (hm : record.getMessage = .ok m) :
    JSONFormatter.format_entry record now = .ok
      (let base := [("severity",
          JVal.str (dictGet JSONFormatter.SEVERITY_MAP record.levelno "INFO")),
        ("message", JVal.str m), ("timestamp", JVal.str now)]
      match record.exc_info with
      | some ei =>
          base ++ [("exception", JVal.str (String.join (format_exception ei)))]
      | none => base) := by
  simp [JSONFormatter.format_entry, hm]

/-- Folding `removeHandler` over a handler list erases those handlers from the
state, one by one, and never touches the level. -/
lemma foldl_removeHandler (l : List Handler) (st : LoggerState) :
    List.foldl removeHandler st l =
      ⟨st.level, List.foldl List.erase st.handlers l⟩ := by
  induction l generalizing st with
  | nil => rfl
  | cons a l ih => simp [List.foldl_cons, removeHandler, ih]

/-- Erasing, in order, every element of a list from that same list empties
it (the `for handler in root_logger.handlers[:]` removal loop). -/
lemma foldl_erase_self {α : Type} [DecidableEq α] (l : List α) :
    List.foldl List.erase l l = [] := by
  induction l with
  | nil => rfl
  | cons a l ih => rw [List.foldl_cons, List.erase_cons_head]; exact ih

/-- `configure_app_logging` yields the same root-logger state whatever the
previous state was: level INFO and exactly the fresh console handler. -/
lemma configure_app_logging_eq (root : LoggerState) :
    configure_app_logging root = ⟨logging.INFO, [console_handler]⟩ := by
  simp [configure_app_logging, foldl_removeHandler, foldl_erase_self, addHandler]

/-- Erasing the element that `find?` returned drops exactly the first
`p`-satisfying element: the filtered list loses its head. -/
lemma filter_erase_of_find? {α : Type} [DecidableEq α] (p : α → Bool) :
    ∀ (l : List α) (a : α), l.find? p = some a →
      (l.erase a).filter p = (l.filter p).tail := by
  intro l
  induction l with
  | nil => intro a h; simp at h
  | cons x xs ih =>
    intro a h
    by_cases hx : p x
    · rw [List.find?_cons_of_pos _ hx] at h
      injection h with h
      subst h
      rw [List.erase_cons_head, List.filter_cons_of_pos hx, List.tail_cons]
    · have hpa : p a := List.find?_some (by rwa [List.find?_cons_of_neg _ hx] at h)
      have hxa : ¬(x == a) = true := by
        simp only [beq_iff_eq]
        intro e
        exact hx (e ▸ hpa)
      rw [List.erase_cons_tail hxa, List.filter_cons_of_neg hx,
        List.filter_cons_of_neg hx]
      exact ih a (by rwa [List.find?_cons_of_neg _ hx] at h)

/-- A list of length at most one has an empty tail. -/
lemma tail_eq_nil_of_length_le_one {α : Type} {l : List α}
    (h : l.length ≤ 1) : l.tail = [] := by
  cases l with
  | nil => rfl
  | cons a t =>
    have ht : t.length = 0 := by
      simp only [List.length_cons] at h
      omega
    simpa using List.eq_nil_of_length_eq_zero ht

/-- `_set_handler` with a non-`None` output on a logger with at most one
gunicorn-managed handler leaves exactly one gunicorn-managed handler, and it
carries the formatter passed in. -/
lemma set_handler_gunicorn (log : LoggerState) (o : String) (fmt : Fmt)
    (stream : Option Stream)
    (hlen : (log.handlers.filter (fun h => h.isGunicorn)).length ≤ 1) :
    ∃ hnew : Handler,
      (_set_handler log (some o) fmt stream).handlers.filter
          (fun h => h.isGunicorn) = [hnew]
        ∧ hnew.formatter = some fmt ∧ hnew.isGunicorn = true := by
  refine ⟨if o = "-" then
      ⟨.toStream (stream.getD .err), 0, some fmt, true⟩
    else ⟨.toFile o, 0, some fmt, true⟩, ?_, ?_, ?_⟩
  · cases hf : log.handlers.find? (fun h => h.isGunicorn) with
    | none =>
      have hnil : log.handlers.filter (fun h => h.isGunicorn) = [] :=
        List.filter_eq_nil_iff.mpr (List.find?_eq_none.mp hf)
      simp only [_set_handler, _get_gunicorn_handler, hf, addHandler]
      rw [List.filter_append, hnil]
      split <;> simp
    | some h =>
      have htail := filter_erase_of_find? (fun h => h.isGunicorn) log.handlers h hf
      simp only [_set_handler, _get_gunicorn_handler, hf, removeHandler, addHandler]
      rw [List.filter_append, htail, tail_eq_nil_of_length_le_one hlen]
      split <;> simp
  · split <;> rfl
  · split <;> rfl

/-! ## Claims -/

/-- C6: after `configure_app_logging` the root logger's level is INFO and its
handler set is exactly one stdout stream handler at level INFO carrying a
`JSONFormatter`; every pre-existing handler is gone. -/
theorem configure_app_logging_resets_root (root : LoggerState) :
    (configure_app_logging root).level = logging.INFO ∧
    (configure_app_logging root).handlers =
      [{ target := .toStream .out, level := logging.INFO,
         formatter := some .json, isGunicorn := false }] := by
  rw [configure_app_logging_eq]
  exact ⟨rfl, rfl⟩

/-- C10: `configure_app_logging` is idempotent on the root logger's
observable state: a second call reproduces the state the first call left. -/
theorem configure_app_logging_idempotent (root : LoggerState) :
    configure_app_logging (configure_app_logging root) =
      configure_app_logging root := by
  rw [configure_app_logging_eq, configure_app_logging_eq]

/-- C1: for a record whose `levelno` is a key of `SEVERITY_MAP` with value
`sev`, `JSONFormatter.format` returns the JSON dump of an object whose
`severity` field is exactly `sev`. -/
theorem format_severity_standard (record : LogRecord) (now m sev : String)
    (hm : record.getMessage = .ok m)
    (hs : (record.levelno, sev) ∈ JSONFormatter.SEVERITY_MAP) :
    ∃ entry, JSONFormatter.format_entry record now = .ok entry ∧
      JSONFormatter.format record now = .ok (json_dumps entry) ∧
      jlookup entry "severity" = some (.str sev) := by
  have hget : dictGet JSONFormatter.SEVERITY_MAP record.levelno "INFO" = sev := by
    simp only [JSONFormatter.SEVERITY_MAP, logging.DEBUG, logging.INFO,
      logging.WARNING, logging.ERROR, logging.CRITICAL, List.mem_cons,
      List.mem_singleton, Prod.mk.injEq, List.not_mem_nil, or_false] at hs
    rcases hs with ⟨h1, h2⟩ | ⟨h1, h2⟩ | ⟨h1, h2⟩ | ⟨h1, h2⟩ | ⟨h1, h2⟩ <;>
      simp [dictGet, JSONFormatter.SEVERITY_MAP, logging.DEBUG, logging.INFO,
        logging.WARNING, logging.ERROR, logging.CRITICAL, List.find?, h1, h2]
  refine ⟨_, format_entry_ok record now m hm, ?_, ?_⟩
  · simp [JSONFormatter.format, format_entry_ok record now m hm, Except.map]
  · cases hei : record.exc_info <;> simp [hei, jlookup, List.find?, hget]

/-- C1 witness: an ERROR-level record maps to severity `"ERROR"`. -/
theorem format_severity_standard_witness :
    ∃ entry, JSONFormatter.format_entry rec1 "T" = .ok entry ∧
      JSONFormatter.format rec1 "T" = .ok (json_dumps entry) ∧
      jlookup entry "severity" = some (.str "ERROR") :=
  format_severity_standard rec1 "T" "boom" "ERROR" rfl (by decide)

/-- C2: whenever the message renders, `format` returns the dump of an object
with keys `severity`, `message` (the record's formatted message) and
`timestamp`; an `exception` key is present exactly when `exc_info` is set,
and then holds the joined formatted traceback. -/
theorem format_entry_structure (record : LogRecord) (now m : String)
    (hm : record.getMessage = .ok m) :
    ∃ entry, JSONFormatter.format_entry record now = .ok entry ∧
      JSONFormatter.format record now = .ok (json_dumps entry) ∧
      (jlookup entry "severity").isSome = true ∧
      jlookup entry "message" = some (.str m) ∧
      jlookup entry "timestamp" = some (.str now) ∧
      ((jlookup entry "exception").isSome = true ↔ record.exc_info.isSome = true) ∧
      ∀ ei, record.exc_info = some ei →
        jlookup entry "exception" =
          some (.str (String.join (format_exception ei))) := by
  refine ⟨_, format_entry_ok record now m hm, ?_, ?_, ?_, ?_, ?_, ?_⟩
  · simp [JSONFormatter.format, format_entry_ok record now m hm, Except.map]
  all_goals cases hei : record.exc_info <;> simp [hei, jlookup, List.find?]

/-- C2 witness: the sample ERROR record with exception info. -/
theorem format_entry_structure_witness :
    ∃ entry, JSONFormatter.format_entry rec1 "T" = .ok entry ∧
      JSONFormatter.format rec1 "T" = .ok (json_dumps entry) ∧
      (jlookup entry "severity").isSome = true ∧
      jlookup entry "message" = some (.str "boom") ∧
      jlookup entry "timestamp" = some (.str "T") ∧
      ((jlookup entry "exception").isSome = true ↔ rec1.exc_info.isSome = true) ∧
      ∀ ei, rec1.exc_info = some ei →
        jlookup entry "exception" =
          some (.str (String.join (format_exception ei))) :=
  format_entry_structure rec1 "T" "boom" rfl

/-- C8: a record whose `levelno` is not a key of `SEVERITY_MAP` is formatted
with the fallback severity `"INFO"` (the `dict.get` default), not an error
and not the numeric level. -/
theorem format_severity_fallback (record : LogRecord) (now m : String)
    (hm : record.getMessage = .ok m)
    (hlvl : record.levelno ∉ JSONFormatter.SEVERITY_MAP.map Prod.fst) :
    ∃ entry, JSONFormatter.format_entry record now = .ok entry ∧
      jlookup entry "severity" = some (.str "INFO") := by
  have hget : dictGet JSONFormatter.SEVERITY_MAP record.levelno "INFO" = "INFO" := by
    simp only [JSONFormatter.SEVERITY_MAP, logging.DEBUG, logging.INFO,
      logging.WARNING, logging.ERROR, logging.CRITICAL, List.map_cons,
      List.map_nil, List.mem_cons, List.not_mem_nil, or_false,
      not_or] at hlvl
    obtain ⟨n1, n2, n3, n4, n5⟩ := hlvl
    have b1 : ((10 : Int) == record.levelno) = false :=
      beq_eq_false_iff_ne.mpr (Ne.symm n1)
    have b2 : ((20 : Int) == record.levelno) = false :=
      beq_eq_false_iff_ne.mpr (Ne.symm n2)
    have b3 : ((30 : Int) == record.levelno) = false :=
      beq_eq_false_iff_ne.mpr (Ne.symm n3)
    have b4 : ((40 : Int) == record.levelno) = false :=
      beq_eq_false_iff_ne.mpr (Ne.symm n4)
    have b5 : ((50 : Int) == record.levelno) = false :=
      beq_eq_false_iff_ne.mpr (Ne.symm n5)
    simp [dictGet, JSONFormatter.SEVERITY_MAP, logging.DEBUG, logging.INFO,
      logging.WARNING, logging.ERROR, logging.CRITICAL, List.find?,
      b1, b2, b3, b4, b5]
  refine ⟨_, format_entry_ok record now m hm, ?_⟩
  cases hei : record.exc_info <;> simp [hei, jlookup, List.find?, hget]

/-- C8 witness: level 25 falls back to severity `"INFO"`. -/
theorem format_severity_fallback_witness :
    ∃ entry, JSONFormatter.format_entry rec2 "T" = .ok entry ∧
      jlookup entry "severity" = some (.str "INFO") :=
  format_severity_fallback rec2 "T" "audit" rfl (by decide)

/-- C5: the adapter adds no failure handling: a `getMessage()` exception
propagates unchanged out of both `format_entry` and `format`; a record's
attached `exc_info` is serialized into the output rather than handled; and
`GCPLogger.access` unconditionally emits its entry whenever the access log
is enabled (it catches nothing and swallows nothing). -/
theorem no_exception_handling :
    (∀ (record : LogRecord) (now : String) (e : PyExc),
      record.getMessage = .error e →
        JSONFormatter.format record now = .error e) ∧
    (∀ (record : LogRecord) (now : String) (e : PyExc),
      record.getMessage = .error e →
        JSONFormatter.format_entry record now = .error e) ∧
    (∀ (record : LogRecord) (now : String) (ei : ExcInfo),
      record.exc_info = some ei → ∀ m, record.getMessage = .ok m →
        ∃ entry, JSONFormatter.format_entry record now = .ok entry ∧
          jlookup entry "exception" =
            some (.str (String.join (format_exception ei)))) ∧
    (∀ (st : GCPLoggerState) (resp : Response) (req : Request)
        (environ : Environ) (request_time : Timedelta) (now : String),
      GCPLogger.is_access_log_enabled st = true →
        GCPLogger.access st resp req environ request_time now =
          [json_dumps (GCPLogger.access_entry resp req environ request_time now)]) := by
  refine ⟨?_, ?_, ?_, ?_⟩
  · intro record now e he
    simp [JSONFormatter.format, JSONFormatter.format_entry, he, Except.map]
  · intro record now e he
    simp [JSONFormatter.format_entry, he]
  · intro record now ei hei m hm
    refine ⟨_, format_entry_ok record now m hm, ?_⟩
    simp [hei, jlookup, List.find?]
  · intro st resp req environ request_time now hen
    simp [GCPLogger.access, hen]

/-- C5 witness: each conjunct at a concrete input. -/
theorem no_exception_handling_witness :
    JSONFormatter.format recErr "T" = .error ⟨"ValueError"⟩ ∧
    JSONFormatter.format_entry recErr "T" = .error ⟨"ValueError"⟩ ∧
    (∃ entry, JSONFormatter.format_entry rec1 "T" = .ok entry ∧
      jlookup entry "exception" =
        some (.str (String.join (format_exception tb1)))) ∧
    GCPLogger.access stEnabled resp0 req0 env0 td0 "T" =
      [json_dumps (GCPLogger.access_entry resp0 req0 env0 td0 "T")] :=
  ⟨no_exception_handling.1 recErr "T" ⟨"ValueError"⟩ rfl,
   no_exception_handling.2.1 recErr "T" ⟨"ValueError"⟩ rfl,
   no_exception_handling.2.2.1 rec1 "T" tb1 rfl "boom" rfl,
   no_exception_handling.2.2.2 stEnabled resp0 req0 env0 td0 "T" rfl⟩

/-- C3: with the access log enabled, `GCPLogger.access` emits the JSON dump
of an entry whose top-level `severity` is `"INFO"` and whose `httpRequest`
sub-object carries the request method and path, the response status, the
environ's user agent and remote address, and the request time rendered as
seconds with six fractional digits. -/
theorem access_entry_fields (st : GCPLoggerState) (resp : Response)
    (req : Request) (environ : Environ) (request_time : Timedelta)
    (now ip ua : String)
    (hen : GCPLogger.is_access_log_enabled st = true)
    (hip : environ.remote_addr = some ip)
    (hua : environ.http_user_agent = some ua) :
    GCPLogger.access st resp req environ request_time now =
      [json_dumps (GCPLogger.access_entry resp req environ request_time now)] ∧
    jlookup (GCPLogger.access_entry resp req environ request_time now)
      "severity" = some (.str "INFO") ∧
    jlookup2 (GCPLogger.access_entry resp req environ request_time now)
      "httpRequest" "requestMethod" = some (.str req.method) ∧
    jlookup2 (GCPLogger.access_entry resp req environ request_time now)
      "httpRequest" "requestUrl" = some (.str req.path) ∧
    jlookup2 (GCPLogger.access_entry resp req environ request_time now)
      "httpRequest" "status" = some (.num resp.status_code) ∧
    jlookup2 (GCPLogger.access_entry resp req environ request_time now)
      "httpRequest" "userAgent" = some (.str ua) ∧
    jlookup2 (GCPLogger.access_entry resp req environ request_time now)
      "httpRequest" "remoteIp" = some (.str ip) ∧
    jlookup2 (GCPLogger.access_entry resp req environ request_time now)
      "httpRequest" "latency" = some (.str (formatSeconds6 request_time ++ "s")) := by
  refine ⟨by simp [GCPLogger.access, hen], ?_, ?_, ?_, ?_, ?_, ?_, ?_⟩ <;>
    simp [GCPLogger.access_entry, jlookup, jlookup2, List.find?, hip, hua]

/-- C3 witness: a concrete request through an enabled access logger. -/
theorem access_entry_fields_witness :
    GCPLogger.access stEnabled resp0 req0 env0 td0 "T" =
      [json_dumps (GCPLogger.access_entry resp0 req0 env0 td0 "T")] ∧
    jlookup (GCPLogger.access_entry resp0 req0 env0 td0 "T")
      "severity" = some (.str "INFO") ∧
    jlookup2 (GCPLogger.access_entry resp0 req0 env0 td0 "T")
      "httpRequest" "requestMethod" = some (.str req0.method) ∧
    jlookup2 (GCPLogger.access_entry resp0 req0 env0 td0 "T")
      "httpRequest" "requestUrl" = some (.str req0.path) ∧
    jlookup2 (GCPLogger.access_entry resp0 req0 env0 td0 "T")
      "httpRequest" "status" = some (.num resp0.status_code) ∧
    jlookup2 (GCPLogger.access_entry resp0 req0 env0 td0 "T")
      "httpRequest" "userAgent" = some (.str "curl/8.0") ∧
    jlookup2 (GCPLogger.access_entry resp0 req0 env0 td0 "T")
      "httpRequest" "remoteIp" = some (.str "10.0.0.7") ∧
    jlookup2 (GCPLogger.access_entry resp0 req0 env0 td0 "T")
      "httpRequest" "latency" = some (.str (formatSeconds6 td0 ++ "s")) :=
  access_entry_fields stEnabled resp0 req0 env0 td0 "T" "10.0.0.7" "curl/8.0"
    rfl rfl rfl

/-- C9: `access` is total over missing client metadata: with `REMOTE_ADDR`
and `HTTP_USER_AGENT` absent from environ and no `response_length` attribute
on the response, the entry is still emitted, `remoteIp` and `userAgent`
default to the empty string, and the message line substitutes `-` for the
missing address and length. -/
theorem access_total_missing_metadata (st : GCPLoggerState) (resp : Response)
    (req : Request) (environ : Environ) (request_time : Timedelta) (now : String)
    (hen : GCPLogger.is_access_log_enabled st = true)
    (hip : environ.remote_addr = none)
    (hua : environ.http_user_agent = none)
    (hrl : resp.response_length = none) :
    GCPLogger.access st resp req environ request_time now =
      [json_dumps (GCPLogger.access_entry resp req environ request_time now)] ∧
    jlookup2 (GCPLogger.access_entry resp req environ request_time now)
      "httpRequest" "remoteIp" = some (.str "") ∧
    jlookup2 (GCPLogger.access_entry resp req environ request_time now)
      "httpRequest" "userAgent" = some (.str "") ∧
    jlookup (GCPLogger.access_entry resp req environ request_time now)
      "message" = some (.str ("- - \"" ++ req.method ++ " " ++ req.path ++ " "
        ++ req.version ++ "\" " ++ toString resp.status_code ++ " -")) := by
  have hdash : (" " : String) ++ "-" = " -" := rfl
  refine ⟨by simp [GCPLogger.access, hen], ?_, ?_, ?_⟩ <;>
    simp [GCPLogger.access_entry, GCPLogger.access_message, jlookup, jlookup2,
      List.find?, hip, hua, hrl, String.append_assoc, hdash]

/-- C9 witness: a request with no client metadata and no response length. -/
theorem access_total_missing_metadata_witness :
    GCPLogger.access stEnabled resp1 req0 env1 td0 "T" =
      [json_dumps (GCPLogger.access_entry resp1 req0 env1 td0 "T")] ∧
    jlookup2 (GCPLogger.access_entry resp1 req0 env1 td0 "T")
      "httpRequest" "remoteIp" = some (.str "") ∧
    jlookup2 (GCPLogger.access_entry resp1 req0 env1 td0 "T")
      "httpRequest" "userAgent" = some (.str "") ∧
    jlookup (GCPLogger.access_entry resp1 req0 env1 td0 "T")
      "message" = some (.str ("- - \"" ++ req0.method ++ " " ++ req0.path ++ " "
        ++ req0.version ++ "\" " ++ toString resp1.status_code ++ " -")) :=
  access_total_missing_metadata stEnabled resp1 req0 env1 td0 "T" rfl rfl rfl rfl

/-- C4 counterexample: when the access logger has no handlers,
`is_access_log_enabled` is false and a call to `access` emits zero entries,
not exactly one. -/
theorem access_disabled_emits_nothing :
    ¬((GCPLogger.access stDisabled resp0 req0 env0 td0 "T").length = 1) := by
  decide

/-- C4 (amended): one call to `GCPLogger.access` emits exactly one access-log
entry when the access log is enabled, and none otherwise. -/
theorem access_emits_one_when_enabled (st : GCPLoggerState) (resp : Response)
    (req : Request) (environ : Environ) (request_time : Timedelta) (now : String) :
    (GCPLogger.access st resp req environ request_time now).length =
      if GCPLogger.is_access_log_enabled st then 1 else 0 := by
  by_cases hen : GCPLogger.is_access_log_enabled st = true <;>
    simp [GCPLogger.access, hen]

/-- C7: `GCPLogger.setup` runs the base gunicorn setup and then installs the
same `JSONFormatter` on both standard loggers: afterwards the error logger
(configured from `cfg.errorlog`) and the access logger (configured from
`cfg.accesslog`) each have exactly one gunicorn-managed handler, and it
carries the JSON formatter. -/
theorem setup_installs_json_formatter (st : GCPLoggerState) (cfg : Cfg)
    (e a : String)
    (he : cfg.errorlog = some e) (ha : cfg.accesslog = some a)
    (h1 : ((st.error_log.handlers.filter (fun h => h.isGunicorn)).length ≤ 1))
    (h2 : ((st.access_log.handlers.filter (fun h => h.isGunicorn)).length ≤ 1)) :
    ((GCPLogger.setup st cfg).error_log.handlers.filter
        (fun h => h.isGunicorn)).map Handler.formatter = [some Fmt.json] ∧
    ((GCPLogger.setup st cfg).access_log.handlers.filter
        (fun h => h.isGunicorn)).map Handler.formatter = [some Fmt.json] := by
  obtain ⟨g1, hg1, _, _⟩ :=
    set_handler_gunicorn { st.error_log with level := cfg.loglevel } e
      (.base error_fmt) none h1
  obtain ⟨g2, hg2, _, _⟩ :=
    set_handler_gunicorn { st.access_log with level := logging.INFO } a
      (.base access_fmt) (some .out) h2
  obtain ⟨j1, hj1, hj1f, _⟩ :=
    set_handler_gunicorn
      (_set_handler { st.error_log with level := cfg.loglevel } (some e)
        (.base error_fmt) none) e Fmt.json none (by rw [hg1]; simp)
  obtain ⟨j2, hj2, hj2f, _⟩ :=
    set_handler_gunicorn
      (_set_handler { st.access_log with level := logging.INFO } (some a)
        (.base access_fmt) (some .out)) a Fmt.json none (by rw [hg2]; simp)
  constructor
  · simp only [GCPLogger.setup, Logger.setup, he, ha, Option.isSome_some,
      if_true]
    rw [hj1, List.map_cons, List.map_nil, hj1f]
  · simp only [GCPLogger.setup, Logger.setup, he, ha, Option.isSome_some,
      if_true]
    rw [hj2, List.map_cons, List.map_nil, hj2f]

/-- C7 witness: a fresh logger pair with both outputs set to `"-"`. -/
theorem setup_installs_json_formatter_witness :
    ((GCPLogger.setup ⟨⟨0, []⟩, ⟨0, []⟩⟩ cfg0).error_log.handlers.filter
        (fun h => h.isGunicorn)).map Handler.formatter = [some Fmt.json] ∧
    ((GCPLogger.setup ⟨⟨0, []⟩, ⟨0, []⟩⟩ cfg0).access_log.handlers.filter
        (fun h => h.isGunicorn)).map Handler.formatter = [some Fmt.json] :=
  setup_installs_json_formatter ⟨⟨0, []⟩, ⟨0, []⟩⟩ cfg0 "-" "-" rfl rfl
    (by decide) (by decide)

end GcpLogging
